import Mathlib

/-!
Shallow embedding of the `StreamReaction` sub-client of `src/src/reaction.ts`.

JavaScript runtime values that the code branches on (truthiness, `||`
defaults, `Record<string, unknown>` payloads) are modelled by the
inductive `JsValue`; plain objects are insertion-ordered association
lists (`Obj`).  Optional TypeScript fields are modelled by `Option`
(`none` covers both an absent property and a property set to
`undefined`/`null`, which the code under study never distinguishes).
Each public method is translated into a pure function producing the
request it would hand to the transport client (`url`, `qs`, `body`);
issuing the network call itself is outside this repository's excerpt.
-/

namespace StreamJS

/-- A JavaScript runtime value, as far as `reaction.ts` inspects one. -/
inductive JsValue where
  | undefined : JsValue
  | null : JsValue
  | bool (b : Bool) : JsValue
  | num (n : Int) : JsValue
  | str (s : String) : JsValue
  | obj (fields : List (String × JsValue)) : JsValue

/-- A plain JavaScript object: insertion-ordered fields. -/
abbrev Obj := List (String × JsValue)

/-- JavaScript truthiness: `undefined`, `null`, `false`, `0` and `""` are
falsy, every object (even `{}`) is truthy. -/
def jsTruthy : JsValue → Bool
  | .undefined => false
  | .null => false
  | .bool b => b
  | .num n => n != 0
  | .str s => s != ""
  | .obj _ => true

/-- JavaScript `a || b`. -/
def jsOr (a b : JsValue) : JsValue := if jsTruthy a then a else b

/-- Source `buildURL`: joins `['reaction', ...args]` with `/` and appends a trailing `/`. -/
def buildURL (args : List String) : String :=
  String.intercalate "/" ("reaction" :: args) ++ "/"

/-- A target-feed element `TargetFeed = string | StreamFeed`: either a plain feed
identifier string or a `StreamFeed` handle, of which the code only ever
reads the `id` property. -/
inductive TargetFeed where
  | str (s : String)
  | feed (id : String)
deriving Repr, DecidableEq

/-- Source `_convertTargetFeeds`: maps each element to itself when it is
a string, and to its `id` property otherwise. -/
def _convertTargetFeeds (targetFeeds : List TargetFeed := []) : List String :=
  targetFeeds.map (fun elem =>
    match elem with
    | .str s => s
    | .feed id => id)

/-- An activity or reaction argument of type `string | { id: string }`:
a raw id string, or an object exposing `.id`.  `refId` is the
extraction `x instanceof Object ? x.id : x` (a primitive string is not
an `instanceof Object`, so `raw` takes the string branch). -/
inductive IdRef where
  | raw (s : String)
  | withId (id : String)
deriving Repr, DecidableEq

/-- Source extraction `x instanceof Object ? x.id : x`. -/
def refId : IdRef → String
  | .raw s => s
  | .withId id => id

/-- The request-body shape `ReactionBody<T>`.  A field is `none` when the
body object does not carry it (or carries `undefined`, which JSON
serialization drops). -/
structure ReactionBody where
  activity_id : Option String := none
  data : Option JsValue := none
  id : Option String := none
  kind : Option String := none
  parent : Option String := none
  target_feeds : Option (List String) := none
  target_feeds_extra_data : Option Obj := none
  user_id : Option String := none

/-- A request handed to `client.post`/`client.put`: the built URL and the
body.  The `signature` (JWT token) field is configuration, not logic, and
is not modelled. -/
structure BodyRequest where
  url : String
  body : ReactionBody

/-- The options object of `add`, with the destructuring defaults of the
source (`targetFeeds = []`; the other fields default to `undefined`). -/
structure AddOptions where
  id : Option String := none
  targetFeeds : List TargetFeed := []
  userId : Option String := none
  targetFeedsExtraData : Option Obj := none

/-- Source `add(kind, activity, data, options)`: builds the body
with `id`, `activity_id`, `kind`, `data` (defaulted via `||` to an empty
object when falsy), `target_feeds` and `user_id`, adds
`target_feeds_extra_data` only when `targetFeedsExtraData != null`, and
posts it to `buildURL()`. -/
def add (kind : String) (activity : IdRef) (data : JsValue)
    (opts : AddOptions := {}) : BodyRequest :=
  let body : ReactionBody :=
    { id := opts.id
      activity_id := some (refId activity)
      kind := some kind
      data := some (jsOr data (.obj []))
      target_feeds := some (_convertTargetFeeds opts.targetFeeds)
      user_id := opts.userId }
  let body :=
    match opts.targetFeedsExtraData with
    | some extra => { body with target_feeds_extra_data := some extra }
    | none => body
  { url := buildURL [], body := body }

/-- The options object of `addChild` (no `id` field, otherwise as `add`). -/
structure ChildOptions where
  targetFeeds : List TargetFeed := []
  userId : Option String := none
  targetFeedsExtraData : Option Obj := none

/-- Source `addChild(kind, reaction, data, options)`: same shape as `add` but the
extracted id goes to `parent` instead of `activity_id`. -/
def addChild (kind : String) (reaction : IdRef) (data : JsValue)
    (opts : ChildOptions := {}) : BodyRequest :=
  let body : ReactionBody :=
    { parent := some (refId reaction)
      kind := some kind
      data := some (jsOr data (.obj []))
      target_feeds := some (_convertTargetFeeds opts.targetFeeds)
      user_id := opts.userId }
  let body :=
    match opts.targetFeedsExtraData with
    | some extra => { body with target_feeds_extra_data := some extra }
    | none => body
  { url := buildURL [], body := body }

/-- The options object of `update`. -/
structure UpdateOptions where
  targetFeeds : List TargetFeed := []
  targetFeedsExtraData : Option Obj := none

/-- Source `update(id, data, options)`: builds a body carrying `data`
(without the empty-object default that `add` applies) and `target_feeds`,
adds `target_feeds_extra_data` only when
supplied, and puts it to `buildURL(id)`. -/
def update (id : String) (data : JsValue)
    (opts : UpdateOptions := {}) : BodyRequest :=
  let body : ReactionBody :=
    { data := some data
      target_feeds := some (_convertTargetFeeds opts.targetFeeds) }
  let body :=
    match opts.targetFeedsExtraData with
    | some extra => { body with target_feeds_extra_data := some extra }
    | none => body
  { url := buildURL [id], body := body }

/-- The `conditions` parameter of `filter`, with its optional fields. -/
structure FilterConditions where
  activity_id : Option String := none
  id_gt : Option String := none
  id_gte : Option String := none
  id_lt : Option String := none
  id_lte : Option String := none
  kind : Option String := none
  limit : Option Int := none
  reaction_id : Option String := none
  user_id : Option String := none
  with_activity_data : Option Bool := none
deriving Repr, DecidableEq

/-- The rest object `qs` left by the destructuring
`const { user_id, activity_id, reaction_id, ...qs } = conditions`. -/
structure FilterQs where
  id_gt : Option String := none
  id_gte : Option String := none
  id_lt : Option String := none
  id_lte : Option String := none
  kind : Option String := none
  limit : Option Int := none
  with_activity_data : Option Bool := none
deriving Repr, DecidableEq

/-- A request handed to `client.get` by `filter`: URL plus query object. -/
structure GetRequest where
  url : String
  qs : FilterQs
deriving Repr, DecidableEq

/-- Truthiness of an optional string condition field (`undefined` and the
empty string are falsy). -/
def truthyStr : Option String → Bool
  | some s => s != ""
  | none => false

/-- Truthiness of the optional numeric `limit` field (`undefined` and `0`
are falsy). -/
def truthyInt : Option Int → Bool
  | some n => n != 0
  | none => false

/-- The message of the `SiteError` thrown by `filter` on a bad lookup axis. -/
def siteErrorMessage : String :=
  "Must provide exactly one value for one of these params: user_id, activity_id, reaction_id"

/-- Rest-spread step of `filter`: every condition field except the three
lookup axes. -/
def filterRest (c : FilterConditions) : FilterQs :=
  { id_gt := c.id_gt
    id_gte := c.id_gte
    id_lt := c.id_lt
    id_lte := c.id_lte
    kind := c.kind
    limit := c.limit
    with_activity_data := c.with_activity_data }

/-- Statement `if (!qs.limit) qs.limit = 10` of `filter`. -/
def defaultLimit (qs : FilterQs) : FilterQs :=
  if truthyInt qs.limit then qs else { qs with limit := some 10 }

/-- The sum `(userId ? 1 : 0) + (activityId ? 1 : 0) + (reactionId ? 1 : 0)`
computed by `filter`'s validation. -/
def truthyAxisCount (c : FilterConditions) : Nat :=
  (if truthyStr c.user_id then 1 else 0) +
    (if truthyStr c.activity_id then 1 else 0) +
    (if truthyStr c.reaction_id then 1 else 0)

/-- The chain
`(userId && 'user_id') || (activityId && 'activity_id') || (reactionId && 'reaction_id')`:
the name of the first truthy axis; `none` models the falsy value the
chain yields when no axis is truthy (unreachable after validation). -/
def lookupType (c : FilterConditions) : Option String :=
  if truthyStr c.user_id then some "user_id"
  else if truthyStr c.activity_id then some "activity_id"
  else if truthyStr c.reaction_id then some "reaction_id"
  else none

/-- The chain `userId || activityId || reactionId`: the first truthy axis
value (falling through to `reactionId` when none is truthy). -/
def axisValue (c : FilterConditions) : Option String :=
  if truthyStr c.user_id then c.user_id
  else if truthyStr c.activity_id then c.activity_id
  else c.reaction_id

/-- Source `filter(conditions)`: splits off the lookup axes, defaults
`limit` to 10 when falsy, throws a `SiteError` unless exactly one axis is
truthy, then issues `GET` on `reaction/{axis}/{value}/` (with a trailing
`{kind}` segment when `conditions.kind` is truthy) carrying the rest
object `qs` as query parameters.  The `Except` error is the thrown
validation error: in that case no request value exists, modelling that no
network call is made.  The `getD ""` coercions mirror the source's
`as string` casts, reachable only after validation. -/
def filter (conditions : FilterConditions) : Except String GetRequest :=
  let qs := defaultLimit (filterRest conditions)
  if truthyAxisCount conditions ≠ 1 then
    .error siteErrorMessage
  else
    let url :=
      if truthyStr conditions.kind then
        buildURL [(lookupType conditions).getD "", (axisValue conditions).getD "",
          conditions.kind.getD ""]
      else
        buildURL [(lookupType conditions).getD "", (axisValue conditions).getD ""]
    .ok { url := url, qs := qs }

/-- Property read `o[key]` on a plain object (`undefined` when absent). -/
def getProp : Obj → String → JsValue
  | [], _ => .undefined
  | (k, v) :: rest, key => if k = key then v else getProp rest key

/-- Property write `o[key] = v` on a plain object: overwrites in place, or
appends a new field. -/
def setProp : Obj → String → JsValue → Obj
  | [], key, v => [(key, v)]
  | (k, w) :: rest, key, v =>
    if k = key then (k, v) :: rest else (k, w) :: setProp rest key v

/-- The keys removed from `conditions` by the rest destructuring in
`filter`. -/
def axisKeys : List String := ["user_id", "activity_id", "reaction_id"]

/-- Rest-spread `{ ...o }` minus the listed keys: a fresh object holding
the remaining own fields, in order. -/
def restSpread (o : Obj) (omitted : List String) : Obj :=
  o.filter (fun p => !omitted.contains p.1)

/-- Coercion `String(v)` as the URL join would apply it. -/
def jsToString : JsValue → String
  | .undefined => "undefined"
  | .null => "null"
  | .bool b => if b then "true" else "false"
  | .num n => toString n
  | .str s => s
  | .obj _ => "[object Object]"

/-- The request `filter` hands to `client.get`, at the object level. -/
structure GetRequestObj where
  url : String
  qs : Obj

/-- Mutation-level translation of `filter`, for the aliasing behaviour the
pure `filter` cannot express.  Objects live in a store (a list indexed by
references); `condRef` is the caller's reference to `conditions`.  The
rest destructuring allocates a fresh object `qs` at a fresh reference,
`qs.limit = 10` is a store update at that reference, and every other
statement only reads.  The returned store is the heap after the call
(also when the validation throws, since the `limit` write precedes the
throw in the source). -/
def filterMut (store : List Obj) (condRef : Nat) :
    List Obj × Except String GetRequestObj :=
  let cond := store.getD condRef []
  let userId := getProp cond "user_id"
  let activityId := getProp cond "activity_id"
  let reactionId := getProp cond "reaction_id"
  let qsRef := store.length
  let store1 := store ++ [restSpread cond axisKeys]
  let store2 :=
    if jsTruthy (getProp (store1.getD qsRef []) "limit") then store1
    else store1.set qsRef (setProp (store1.getD qsRef []) "limit" (.num 10))
  let result : Except String GetRequestObj :=
    if ((if jsTruthy userId then 1 else 0) + (if jsTruthy activityId then 1 else 0) +
        (if jsTruthy reactionId then 1 else 0) : Nat) ≠ 1 then
      .error siteErrorMessage
    else
      let lookupTypeV :=
        if jsTruthy userId then JsValue.str "user_id"
        else if jsTruthy activityId then JsValue.str "activity_id"
        else if jsTruthy reactionId then JsValue.str "reaction_id"
        else reactionId
      let valueV :=
        if jsTruthy userId then userId
        else if jsTruthy activityId then activityId
        else reactionId
      let url :=
        if jsTruthy (getProp cond "kind") then
          buildURL [jsToString lookupTypeV, jsToString valueV,
            jsToString (getProp cond "kind")]
        else
          buildURL [jsToString lookupTypeV, jsToString valueV]
      .ok { url := url, qs := store2.getD qsRef [] }
  (store2, result)

/-! ## Characterization lemmas shared by the claim theorems -/

/-- The URL `filter` builds once validation has passed. -/
def filterURL (c : FilterConditions) : String :=
  if truthyStr c.kind then
    buildURL [(lookupType c).getD "", (axisValue c).getD "", c.kind.getD ""]
  else
    buildURL [(lookupType c).getD "", (axisValue c).getD ""]

theorem filter_ok_iff (c : FilterConditions) (r : GetRequest) :
    filter c = .ok r ↔
      truthyAxisCount c = 1 ∧
        r = { url := filterURL c, qs := defaultLimit (filterRest c) } := by
  rw [filter]
  split
  · rename_i h
    simp only [reduceCtorEq, false_iff, not_and]
    intro hc
    exact absurd hc h
  · rename_i h
    rw [not_ne_iff] at h
    simp only [Except.ok.injEq, h, true_and]
    constructor
    · intro he
      rw [← he, filterURL]
    · intro he
      rw [he, filterURL]

theorem filter_error_iff (c : FilterConditions) (e : String) :
    filter c = .error e ↔ truthyAxisCount c ≠ 1 ∧ e = siteErrorMessage := by
  rw [filter]
  split
  · rename_i h
    simp only [Except.error.injEq, h, ne_eq, not_false_eq_true, true_and]
    exact eq_comm
  · rename_i h
    rw [not_ne_iff] at h
    simp [h]

/-! ## Claim theorems -/

/-- C1: `filter` validates the lookup axis.  When the number of truthy
axis fields among `user_id`, `activity_id`, `reaction_id` (an empty
string counting as absent, exactly as the source's truthiness test) is
zero or more than one, `filter` fails synchronously with the `SiteError`
whose message names the three mutually-exclusive fields, and no request
is produced; when exactly one is truthy, no validation error is raised
and a request is issued. -/
theorem filter_validates_lookup_axis (c : FilterConditions) :
    (truthyAxisCount c ≠ 1 →
      filter c = .error
        "Must provide exactly one value for one of these params: user_id, activity_id, reaction_id") ∧
    (truthyAxisCount c = 1 → ∃ r, filter c = .ok r) := by
  constructor
  · intro h
    exact (filter_error_iff c _).2 ⟨h, rfl⟩
  · intro h
    exact ⟨_, (filter_ok_iff c _).2 ⟨h, rfl⟩⟩

/-- Witness for C1: zero axes and two axes fail with the validation
message; exactly one axis yields a request. -/
theorem filter_validates_lookup_axis_witness :
    filter {} = .error
      "Must provide exactly one value for one of these params: user_id, activity_id, reaction_id" ∧
    filter { user_id := some "john", activity_id := some "0c7db91c" } = .error
      "Must provide exactly one value for one of these params: user_id, activity_id, reaction_id" ∧
    ∃ r, filter { activity_id := some "0c7db91c" } = .ok r :=
  ⟨(filter_validates_lookup_axis {}).1 (by decide),
    (filter_validates_lookup_axis _).1 (by decide),
    (filter_validates_lookup_axis _).2 (by decide)⟩

/-- C2 counterexample: the claim says the query parameters consist only of
the range cursors, `limit` and `with_activity_data`, and that `kind` is
never conveyed as a query parameter.  But the rest object `qs` that
`filter` passes as the query carries `kind` whenever it was supplied:
filtering by `activity_id` with `kind := "like"` produces a query object
whose `kind` field is set. -/
theorem filter_kind_in_query_cex :
    filter { activity_id := some "0c7db91c", kind := some "like" } =
      .ok { url := "reaction/activity_id/0c7db91c/like/",
            qs := { kind := some "like", limit := some 10 } } ∧
    ({ kind := some "like", limit := some 10 } : FilterQs).kind ≠ none := by
  constructor
  · rfl
  · decide

/-- C2 amended: for every `filter` call that passes validation, the URL is
`reaction/{axis}/{value}/{kind}/` when `kind` is truthy and
`reaction/{axis}/{value}/` otherwise, and the query object consists of
all the remaining condition fields: the range cursors `id_lt`, `id_lte`,
`id_gt`, `id_gte`, plus `limit`, `with_activity_data` — and also `kind`,
which is conveyed both as a path segment and as a query parameter. -/
theorem filter_request_shape (c : FilterConditions) (r : GetRequest)
    (h : filter c = .ok r) :
    r.url = (if truthyStr c.kind then
        buildURL [(lookupType c).getD "", (axisValue c).getD "", c.kind.getD ""]
      else
        buildURL [(lookupType c).getD "", (axisValue c).getD ""]) ∧
    r.qs.id_lt = c.id_lt ∧ r.qs.id_lte = c.id_lte ∧
    r.qs.id_gt = c.id_gt ∧ r.qs.id_gte = c.id_gte ∧
    r.qs.with_activity_data = c.with_activity_data ∧
    r.qs.kind = c.kind ∧
    r.qs.limit = (if truthyInt c.limit then c.limit else some 10) := by
  obtain ⟨-, rfl⟩ := (filter_ok_iff c r).1 h
  refine ⟨rfl, ?_⟩
  rw [defaultLimit]
  split <;> simp_all [filterRest]

/-- Witness for C2 amended: a filter by `user_id` with a `kind`, one range
cursor and an explicit limit. -/
theorem filter_request_shape_witness :
    ({ url := "reaction/user_id/john/like/",
       qs := { id_lt := some "i", kind := some "like", limit := some 5 } } :
         GetRequest).qs.kind = some "like" :=
  (filter_request_shape
    { user_id := some "john", kind := some "like", id_lt := some "i", limit := some 5 }
    _ rfl).2.2.2.2.2.2.1

/-- C7: when no `limit` condition is specified, the outgoing query carries
`limit = 10`. -/
theorem filter_limit_defaults_to_ten (c : FilterConditions) (r : GetRequest)
    (hl : c.limit = none) (h : filter c = .ok r) : r.qs.limit = some 10 := by
  obtain ⟨-, rfl⟩ := (filter_ok_iff c r).1 h
  simp [defaultLimit, filterRest, truthyInt, hl]

/-- Witness for C7: filtering by `user_id` with no limit sends `limit = 10`. -/
theorem filter_limit_defaults_to_ten_witness :
    ({ user_id := some "john" } : FilterConditions).limit = none ∧
    ({ url := "reaction/user_id/john/", qs := { limit := some 10 } } :
      GetRequest).qs.limit = some 10 :=
  ⟨rfl, filter_limit_defaults_to_ten { user_id := some "john" } _ rfl rfl⟩

/-- C9: an explicit `limit := 0` is falsy, so the default check treats it
as unset and the outgoing query carries `limit = 10`; a limit of zero can
never be transmitted. -/
theorem filter_limit_zero_becomes_ten (c : FilterConditions) (r : GetRequest)
    (hl : c.limit = some 0) (h : filter c = .ok r) : r.qs.limit = some 10 := by
  obtain ⟨-, rfl⟩ := (filter_ok_iff c r).1 h
  simp [defaultLimit, filterRest, truthyInt, hl]

/-- Witness for C9: filtering by `user_id` with `limit := 0` sends
`limit = 10`. -/
theorem filter_limit_zero_becomes_ten_witness :
    ({ user_id := some "john", limit := some 0 } : FilterConditions).limit = some 0 ∧
    ({ url := "reaction/user_id/john/", qs := { limit := some 10 } } :
      GetRequest).qs.limit = some 10 :=
  ⟨rfl, filter_limit_zero_becomes_ten { user_id := some "john", limit := some 0 } _
    rfl rfl⟩

/-- C8: axis presence is decided by truthiness.  An axis set to the empty
string counts as absent: `filter {user_id := ""}` fails validation with
the axis error, while a conditions object with `user_id` empty and
`activity_id` a non-empty string passes validation and looks up by the
non-empty axis. -/
theorem filter_axis_truthiness (s : String) (h : s ≠ "") :
    filter { user_id := some "" } = .error siteErrorMessage ∧
    filter { user_id := some "", activity_id := some s } =
      .ok { url := buildURL ["activity_id", s], qs := { limit := some 10 } } := by
  constructor
  · exact (filter_error_iff _ _).2 ⟨by decide, rfl⟩
  · refine (filter_ok_iff _ _).2 ⟨?_, ?_⟩
    · simp [truthyAxisCount, truthyStr, h]
    · simp [filterURL, truthyStr, lookupType, axisValue, defaultLimit, filterRest,
        truthyInt, h]

/-- Witness for C8 at the non-empty axis value `"0c7db91c"`. -/
theorem filter_axis_truthiness_witness :
    filter { user_id := some "" } = .error siteErrorMessage ∧
    filter { user_id := some "", activity_id := some "0c7db91c" } =
      .ok { url := buildURL ["activity_id", "0c7db91c"], qs := { limit := some 10 } } :=
  filter_axis_truthiness "0c7db91c" (by decide)

/-- C3: `add` treats a raw id string and an object `{id: <same string>}`
identically, resolving the id into `activity_id`; `addChild` does the
same, resolving the id into `parent` instead of `activity_id`. -/
theorem add_string_object_same_body (kind s : String) (d : JsValue)
    (o : AddOptions) (oc : ChildOptions) :
    add kind (.raw s) d o = add kind (.withId s) d o ∧
    addChild kind (.raw s) d oc = addChild kind (.withId s) d oc ∧
    (add kind (.raw s) d o).body.activity_id = some s ∧
    (add kind (.raw s) d o).body.parent = none ∧
    (addChild kind (.raw s) d oc).body.parent = some s ∧
    (addChild kind (.raw s) d oc).body.activity_id = none := by
  refine ⟨rfl, rfl, ?_, ?_, ?_, ?_⟩
  · cases h : o.targetFeedsExtraData <;> simp [add, refId, h]
  · cases h : o.targetFeedsExtraData <;> simp [add, refId, h]
  · cases h : oc.targetFeedsExtraData <;> simp [addChild, refId, h]
  · cases h : oc.targetFeedsExtraData <;> simp [addChild, refId, h]

/-- C4: for `add`, `addChild` and `update`, the request body carries
`target_feeds_extra_data` exactly when the caller supplied
`targetFeedsExtraData`: the body field equals the supplied option, so a
supplied value — an empty object included — is forwarded, and when it is
not supplied the field is absent (`none`), not an empty object. -/
theorem target_feeds_extra_data_iff_supplied (k : String) (a r : IdRef)
    (d du : JsValue) (o : AddOptions) (oc : ChildOptions) (id : String)
    (ou : UpdateOptions) :
    (add k a d o).body.target_feeds_extra_data = o.targetFeedsExtraData ∧
    (addChild k r d oc).body.target_feeds_extra_data = oc.targetFeedsExtraData ∧
    (update id du ou).body.target_feeds_extra_data = ou.targetFeedsExtraData := by
  refine ⟨?_, ?_, ?_⟩
  · cases h : o.targetFeedsExtraData <;> simp [add, h]
  · cases h : oc.targetFeedsExtraData <;> simp [addChild, h]
  · cases h : ou.targetFeedsExtraData <;> simp [update, h]

/-- C5: `update` always puts a `target_feeds` array in the body — the
normalized caller list when `targetFeeds` is supplied and the empty array
when it is omitted (the destructuring default), so omitting `targetFeeds`
and passing an empty list produce identical requests. -/
theorem update_always_sends_target_feeds (id : String) (d : JsValue)
    (o : UpdateOptions) (ed : Option Obj) :
    (update id d o).body.target_feeds = some (_convertTargetFeeds o.targetFeeds) ∧
    (update id d { targetFeedsExtraData := ed }).body.target_feeds = some [] ∧
    update id d { targetFeedsExtraData := ed } =
      update id d { targetFeeds := [], targetFeedsExtraData := ed } := by
  refine ⟨?_, ?_, rfl⟩
  · cases h : o.targetFeedsExtraData <;> simp [update, h]
  · cases ed <;> simp [update, _convertTargetFeeds]

/-- C6: `_convertTargetFeeds` maps every element of a mixed list of plain
identifier strings and feed handles to a plain identifier — the string
itself for a string element, the handle's `id` otherwise — keeping the
length and the input order (position `i` of the output comes from
position `i` of the input). -/
theorem convertTargetFeeds_pointwise (tf : List TargetFeed) (i : Nat) :
    (_convertTargetFeeds tf).length = tf.length ∧
    (_convertTargetFeeds tf)[i]? = (tf[i]?).map (fun e =>
      match e with
      | .str s => s
      | .feed id => id) := by
  refine ⟨?_, ?_⟩
  · simp [_convertTargetFeeds]
  · simp [_convertTargetFeeds, List.getElem?_map]

/-- C10: `filter` never mutates the caller's `conditions` object.  In the
mutation-level translation, the object the caller's reference points to
is unchanged by the call: the limit default is written to the freshly
allocated rest object only. -/
theorem filter_does_not_mutate_conditions (store : List Obj) (condRef : Nat)
    (h : condRef < store.length) :
    ((filterMut store condRef).1)[condRef]? = store[condRef]? := by
  have hne : store.length ≠ condRef := Nat.ne_of_gt h
  rw [filterMut]
  split
  · exact List.getElem?_append_left h
  · rw [List.getElem?_set_ne hne]
    exact List.getElem?_append_left h

/-- Witness for C10: a one-object store holding a `user_id` condition is
unchanged at the caller's reference after `filterMut`. -/
theorem filter_does_not_mutate_conditions_witness :
    ((filterMut [[("user_id", JsValue.str "john")]] 0).1)[0]? =
      [[(("user_id" : String), JsValue.str "john")]][0]? :=
  filter_does_not_mutate_conditions [[("user_id", JsValue.str "john")]] 0
    (by decide)

end StreamJS
